import Mathlib

/-!
Shallow embedding of the Process Control & Introspection subsystem of the
QNX Remote Process Monitor (namespace qnx::utils, class ProcessControl in
src/src/Authenticator.cpp, lines 207-567).

Modelling conventions:
* The kernel and the procfs process table are an explicit environment
  `ProcFS`: `sigOk pid sig` is the success of one kernel signal delivery
  (`SignalKill` on QNX, `kill` otherwise), `entries` are the directory
  entries seen by `std::filesystem::directory_iterator("/proc")`, and the
  per-pid record readers return `none` when the corresponding file cannot
  be opened.
* `plat : Bool` is the compile-time platform switch: `true` is a build
  with `__QNXNTO__` defined, `false` the fallback branches.
* C++ strings/byte buffers are `List Char`; binary records are abstracted
  to their byte count plus the fields the code extracts (`parent`,
  `stksize`), since a `read` of `sizeof(T)` bytes succeeds exactly when
  at least that many bytes are available.  The concrete `sizeof` values
  are platform constants; only the comparison against them matters.
* The C++ `double cpu_usage` only ever holds the literals 0.0 and 0.5,
  both exactly representable, so it is modelled as `ℚ`.
* Fallible paths (caught exceptions, failed reads) become `Option`.
-/

/-- INT_MAX of the 32-bit `int` that `std::stoi` produces. -/
def INT_MAX : Nat := 2147483647

/-- Stands for `sizeof(debug_process_t)`: the byte count a full read of the
binary `info` record needs.  The exact value is platform-defined; the code
only ever compares the available bytes against it. -/
def infoSize : Nat := 128

/-- Stands for `sizeof(procfs_status)` (QNX 8.0: `debug_thread_t`). -/
def statusSize : Nat := 64

/-- QNX signal number for SIGTERM. -/
def SIGTERM : Int := 15

/-- QNX signal number for SIGSTOP. -/
def SIGSTOP : Int := 23

/-- QNX signal number for SIGCONT. -/
def SIGCONT : Int := 25

/-- The null byte, the argument separator inside a `cmdline` record. -/
def NUL : Char := Char.ofNat 0

/-- One directory entry under `/proc`, as seen by the directory iterator:
its filename and whether it is a directory. -/
structure DirEntry where
  isDir : Bool
  name : List Char
deriving DecidableEq

/-- The binary `/proc/<pid>/info` record (`debug_process_t`): the number of
bytes available to read, and the `parent` field the code extracts. -/
structure InfoRecord where
  size : Nat
  parent : Int
deriving DecidableEq

/-- The binary `/proc/<pid>/status` record (`procfs_status`): the number of
bytes available, and the `stksize` field the code extracts. -/
structure StatusRecord where
  size : Nat
  stksize : Nat
deriving DecidableEq

/-- The environment a call runs against: the kernel signal interface and
the procfs process table.  A record reader returning `none` models a file
that cannot be opened. -/
structure ProcFS where
  sigOk : Int → Int → Bool
  entries : List DirEntry
  info : Int → Option InfoRecord
  status : Int → Option StatusRecord
  cmdline : Int → Option (List Char)
  stat : Int → Option (List Char)

/-- `qnx::ProcessInfo` as filled in by `getProcessInfo`. -/
structure ProcessInfo where
  cpu_usage : ℚ
  memory_usage : Nat
deriving DecidableEq

/-- Observable outcome of one lifecycle operation: the returned boolean,
the list of (pid, signal) kernel delivery requests it issued, and the
diagnostic message printed on failure, if any. -/
structure SigOutcome where
  ok : Bool
  sent : List (Int × Int)
  diag : Option String
deriving DecidableEq

/-- `ProcessControl::sendSignal`: one kernel delivery request
(`SignalKill` on QNX, `kill` otherwise, both abstracted by `sigOk`);
returns false with a diagnostic when the kernel reports failure. -/
def sendSignal (fs : ProcFS) (pid sig : Int) : SigOutcome :=
  if fs.sigOk pid sig then { ok := true, sent := [(pid, sig)], diag := none }
  else { ok := false, sent := [(pid, sig)], diag := some "Failed to send signal" }

/-- `ProcessControl::suspend`: SIGSTOP on QNX; on other platforms prints a
not-supported diagnostic and returns false without any kernel call. -/
def suspend (plat : Bool) (fs : ProcFS) (pid : Int) : SigOutcome :=
  if plat then sendSignal fs pid SIGSTOP
  else { ok := false, sent := [],
         diag := some "Process suspension not supported on non-QNX systems" }

/-- `ProcessControl::resume`: SIGCONT on QNX; on other platforms prints a
not-supported diagnostic and returns false without any kernel call. -/
def resume (plat : Bool) (fs : ProcFS) (pid : Int) : SigOutcome :=
  if plat then sendSignal fs pid SIGCONT
  else { ok := false, sent := [],
         diag := some "Process resumption not supported on non-QNX systems" }

/-- `ProcessControl::terminate`: SIGTERM on every platform. -/
def terminate (plat : Bool) (fs : ProcFS) (pid : Int) : SigOutcome :=
  sendSignal fs pid SIGTERM

/-- `ProcessControl::exists`: probes the kernel with signal 0
(`SignalKill(0,pid,0,0,0,0) != -1` on QNX, `kill(pid,0) == 0` otherwise;
both are the success of a zero-signal delivery). -/
def exists_ (plat : Bool) (fs : ProcFS) (pid : Int) : Bool :=
  fs.sigOk pid 0

/-- `std::stoi` at its single call site in `getChildProcesses`, where the
name is known to start with a digit: the longest leading run of decimal
digits is converted; `none` models the thrown-and-caught
`invalid_argument` (no digits) or `out_of_range` (value above INT_MAX). -/
def stoi (s : List Char) : Option Int :=
  let ds := s.takeWhile Char.isDigit
  if ds = [] then none
  else
    let v : Nat := ds.foldl (fun a c => a * 10 + (c.toNat - 48)) 0
    if v ≤ INT_MAX then some (v : Int) else none

/-- The status-file fallback inside `getParentPid`: opens
`/proc/<pid>/status`; if the open fails, returns `nullopt`; if the read of
`sizeof(procfs_status)` bytes succeeds it still returns `nullopt`, because
in QNX 8.0 `procfs_status` is `debug_thread_t`, which carries no parent
pid; a short read falls through to the trailing `return std::nullopt`. -/
def statusFallback (fs : ProcFS) (pid : Int) : Option Int :=
  match fs.status pid with
  | none => none
  | some s => if statusSize ≤ s.size then none else none

/-- `ProcessControl::getParentPid`: on QNX, tries a full read of the
binary `info` record and returns its `parent` field; an unopenable or
short `info` record falls back to the `status` record (which never yields
a parent).  On non-QNX builds the whole body is compiled out and it
returns `nullopt`. -/
def getParentPid (plat : Bool) (fs : ProcFS) (pid : Int) : Option Int :=
  if plat then
    match fs.info pid with
    | some r => if infoSize ≤ r.size then some r.parent else statusFallback fs pid
    | none => statusFallback fs pid
  else none

/-- The per-entry body of the scan loop in `getChildProcesses`: skip
non-directories, skip an empty name or one whose first character is not a
digit (`std::isdigit(name[0])`), parse the name with `std::stoi` (any
exception is caught and the entry skipped), look up the candidate's
parent, and keep it when the parent equals the target pid. -/
def childCandidate (fs : ProcFS) (target : Int) (e : DirEntry) : Option Int :=
  if e.isDir = false then none else
  match e.name with
  | [] => none
  | c :: _ =>
    if c.isDigit = false then none else
    match stoi e.name with
    | none => none
    | some current =>
      match getParentPid true fs current with
      | some pp => if pp = target then some current else none
      | none => none

/-- `ProcessControl::getChildProcesses`: on QNX, scans every directory
entry under `/proc` with the loop body `childCandidate`, accumulating the
kept pids in order; on non-QNX builds the scan is compiled out and the
vector stays empty. -/
def getChildProcesses (plat : Bool) (fs : ProcFS) (pid : Int) : List Int :=
  if plat then fs.entries.filterMap (childCandidate fs pid) else []

/-- `ProcessControl::getCommandLine`: returns "" when the `cmdline` record
cannot be opened; otherwise `std::getline` reads the bytes up to (not
including) the first newline, and every null byte in that line is replaced
by a space. -/
def getCommandLine (fs : ProcFS) (pid : Int) : List Char :=
  match fs.cmdline pid with
  | none => []
  | some bytes =>
      (bytes.takeWhile (fun c => c != '\n')).map (fun c => if c = NUL then ' ' else c)

/-- The memory-usage figure `getProcessInfo` computes: `stksize` from a
full read of the `status` record, left at the initialiser 0 when the open
or the read fails. -/
def memOf (fs : ProcFS) (pid : Int) : Nat :=
  match fs.status pid with
  | some s => if statusSize ≤ s.size then s.stksize else 0
  | none => 0

/-- The cpu-usage figure `getProcessInfo` computes: the placeholder 0.5
when `std::getline` on the `stat` record succeeds (file opens and is
nonempty), left at the initialiser 0.0 otherwise. -/
def cpuOf (fs : ProcFS) (pid : Int) : ℚ :=
  match fs.stat pid with
  | some content => if content = [] then 0 else 1/2
  | none => 0

/-- `ProcessControl::getProcessInfo`: returns `nullopt` immediately when
the existence probe fails; on QNX then builds `ProcessInfo` from the
`status` and `stat` records; on non-QNX builds the record-reading block is
compiled out and control reaches the trailing `return std::nullopt`. -/
def getProcessInfo (plat : Bool) (fs : ProcFS) (pid : Int) : Option ProcessInfo :=
  if exists_ plat fs pid = false then none
  else if plat then some { cpu_usage := cpuOf fs pid, memory_usage := memOf fs pid }
  else none

/-! ### Concrete process tables used by closed theorems and witnesses -/

/-- The synthetic process table of §8 of the spec: four live processes
100, 101, 102, 103 with parents 1, 100, 100, 101; every `info` record is
fully readable. -/
def table100 : ProcFS where
  sigOk := fun _ _ => true
  entries := [⟨true, ['1', '0', '0']⟩, ⟨true, ['1', '0', '1']⟩,
              ⟨true, ['1', '0', '2']⟩, ⟨true, ['1', '0', '3']⟩]
  info := fun p =>
    if p = 100 then some ⟨infoSize, 1⟩
    else if p = 101 then some ⟨infoSize, 100⟩
    else if p = 102 then some ⟨infoSize, 100⟩
    else if p = 103 then some ⟨infoSize, 101⟩
    else none
  status := fun _ => none
  cmdline := fun _ => none
  stat := fun _ => none

/-- A process table whose single directory entry is named `101x` — not a
purely numeric name — while pid 101 has a fully readable `info` record
declaring parent 100. -/
def c2FS : ProcFS where
  sigOk := fun _ _ => true
  entries := [⟨true, ['1', '0', '1', 'x']⟩]
  info := fun p => if p = 101 then some ⟨infoSize, 100⟩ else none
  status := fun _ => none
  cmdline := fun _ => none
  stat := fun _ => none

/-! ### Claims -/

/-- Claim C1: on the synthetic process table with records
100↦parent 1, 101↦parent 100, 102↦parent 100, 103↦parent 101,
`getChildProcesses 100` returns exactly {101, 102} (here: the list
[101, 102], in table order) and `getChildProcesses 101` returns exactly
{103}. -/
theorem c1_getChildProcesses_synthetic_table :
    getChildProcesses true table100 100 = [101, 102] ∧
    getChildProcesses true table100 101 = [103] := by
  constructor <;> decide

/-- Claim C2 counterexample: in the process table `c2FS` the only
directory entry is named `101x` — a name containing the non-digit
character `x` — yet `getChildProcesses 100` returns [101]: the entry is
attempted (only its first character is tested with `isdigit`) and
`std::stoi` parses the leading digits 101, so the entry contributes a pid,
contradicting the claim that such an entry never does. -/
theorem c2_nonNumericName_counterexample :
    c2FS.entries = [⟨true, ['1', '0', '1', 'x']⟩] ∧
    Char.isDigit 'x' = false ∧
    getChildProcesses true c2FS 100 = [101] := by
  refine ⟨rfl, rfl, ?_⟩
  decide

/-- Claim C2 amended: every pid in the result of `getChildProcesses` comes
from a directory entry whose name is nonempty and starts with a decimal
digit, and whose longest leading digit run parses (via `stoi`) to that
pid with parent equal to the target; the characters after the leading
digit run are not inspected, so the name need not be purely numeric. -/
theorem c2_amended_leadingDigits (fs : ProcFS) (pid p : Int)
    (hp : p ∈ getChildProcesses true fs pid) :
    ∃ e, e ∈ fs.entries ∧ e.isDir = true ∧
      (∃ c t, e.name = c :: t ∧ c.isDigit = true) ∧
      stoi e.name = some p ∧ getParentPid true fs p = some pid := by
  have hp' : p ∈ fs.entries.filterMap (childCandidate fs pid) := by
    simpa [getChildProcesses] using hp
  rcases List.mem_filterMap.mp hp' with ⟨e, he, hc⟩
  refine ⟨e, he, ?_⟩
  unfold childCandidate at hc
  split at hc
  · exact absurd hc (by simp)
  · split at hc
    · exact absurd hc (by simp)
    · rename_i c t hname
      split at hc
      · exact absurd hc (by simp)
      · rename_i hdig
        split at hc
        · exact absurd hc (by simp)
        · rename_i current hstoi
          split at hc
          · rename_i pp hpar
            split at hc
            · rename_i hpp
              have hcur : current = p := by
                simpa using hc
              subst hcur
              subst hpp
              exact ⟨(Bool.not_eq_false _).mp (by assumption),
                     ⟨c, t, hname, (Bool.not_eq_false _).mp hdig⟩, hstoi, hpar⟩
            · exact absurd hc (by simp)
          · exact absurd hc (by simp)

/-- Claim C2 amended, witness: instantiated on the concrete table `c2FS`,
where 101 is returned for target 100. -/
theorem c2_amended_witness :
    ∃ e, e ∈ c2FS.entries ∧ e.isDir = true ∧
      (∃ c t, e.name = c :: t ∧ c.isDigit = true) ∧
      stoi e.name = some 101 ∧ getParentPid true c2FS 101 = some 100 :=
  c2_amended_leadingDigits c2FS 100 101 (by decide)

/-- Claim C3: `getParentPid` (QNX build) returns the parent field of the
`info` record exactly when that record is fully readable; in every other
case — record unopenable, or shorter than `sizeof(debug_process_t)` — it
returns absent, because the `status` fallback can never yield a parent
field (QNX 8.0 `procfs_status` has none); no case throws: the function is
total with an `Option` result. -/
theorem c3_getParentPid_info_only (fs : ProcFS) (pid : Int) :
    getParentPid true fs pid =
      (match fs.info pid with
       | some r => if infoSize ≤ r.size then some r.parent else none
       | none => none) := by
  unfold getParentPid statusFallback
  cases h : fs.info pid with
  | none => cases fs.status pid <;> simp
  | some r =>
    by_cases hs : infoSize ≤ r.size
    · simp [hs]
    · cases fs.status pid <;> simp [hs]

/-- A table in which pid 42 is dead: the kernel existence probe fails for
every signal.  The `status` and `stat` readers are deliberately nonempty
readable records, to show `getProcessInfo` ignores them on the
short-circuit path. -/
def deadFS4 : ProcFS where
  sigOk := fun _ _ => false
  entries := []
  info := fun _ => none
  status := fun _ => some ⟨statusSize, 4096⟩
  cmdline := fun _ => none
  stat := fun _ => some ['x']

/-- Claim C4: when the existence probe fails, `getProcessInfo` returns
absent.  The environment `fs` is universally quantified, so the result is
`none` for every content of the `status` and `stat` records — the
short-circuit cannot depend on (hence cannot have read) either record. -/
theorem c4_getProcessInfo_shortCircuit (plat : Bool) (fs : ProcFS) (pid : Int)
    (h : fs.sigOk pid 0 = false) :
    getProcessInfo plat fs pid = none := by
  unfold getProcessInfo exists_
  simp [h]

/-- Claim C4 witness: in `deadFS4` pid 42 fails the probe, and
`getProcessInfo` is absent even though its `status` and `stat` records are
readable. -/
theorem c4_witness :
    deadFS4.sigOk 42 0 = false ∧ getProcessInfo true deadFS4 42 = none :=
  ⟨rfl, c4_getProcessInfo_shortCircuit true deadFS4 42 rfl⟩

/-- A table in which pid 999 was never issued: the probe fails and no
procfs record of it exists. -/
def deadFS5 : ProcFS where
  sigOk := fun _ _ => false
  entries := []
  info := fun _ => none
  status := fun _ => none
  cmdline := fun _ => none
  stat := fun _ => none

/-- Claim C5: an identifier `p` that is not a live process — the kernel
probe fails and the process table holds no `info` or `status` record for
it — has `exists p = false`, `getParentPid p` absent and
`getProcessInfo p` absent, on both platform builds. -/
theorem c5_dead_pid_absent (plat : Bool) (fs : ProcFS) (p : Int)
    (hk : fs.sigOk p 0 = false)
    (hi : fs.info p = none) (hs : fs.status p = none) :
    exists_ plat fs p = false ∧
    getParentPid plat fs p = none ∧
    getProcessInfo plat fs p = none := by
  refine ⟨hk, ?_, ?_⟩
  · cases plat with
    | false => rfl
    | true => unfold getParentPid statusFallback; simp [hi, hs]
  · unfold getProcessInfo exists_
    simp [hk]

/-- Claim C5 witness: instantiated at the never-issued pid 999 in
`deadFS5`. -/
theorem c5_witness :
    deadFS5.sigOk 999 0 = false ∧
    (exists_ true deadFS5 999 = false ∧
     getParentPid true deadFS5 999 = none ∧
     getProcessInfo true deadFS5 999 = none) :=
  ⟨rfl, c5_dead_pid_absent true deadFS5 999 rfl rfl rfl⟩

/-- Helper: `takeWhile` keeps a whole list all of whose elements satisfy
the predicate. -/
theorem takeWhile_of_all {α : Type} (p : α → Bool) (l : List α)
    (h : ∀ x ∈ l, p x = true) : l.takeWhile p = l := by
  induction l with
  | nil => rfl
  | cons a t ih =>
    simp only [List.takeWhile, h a (by simp)]
    exact congrArg (a :: ·) (ih (fun x hx => h x (by simp [hx])))

/-- Helper: `takeWhile` stops exactly at the first failing element. -/
theorem takeWhile_append_stop {α : Type} (p : α → Bool) (pre post : List α)
    (c : α) (hpre : ∀ x ∈ pre, p x = true) (hc : p c = false) :
    (pre ++ c :: post).takeWhile p = pre := by
  induction pre with
  | nil => simp [List.takeWhile, hc]
  | cons a t ih =>
    simp only [List.cons_append, List.takeWhile, hpre a (by simp)]
    exact congrArg (a :: ·) (ih (fun x hx => hpre x (by simp [hx])))

/-- The byte content of the `cmdline` record "prog\0--flag\0value". -/
def c6Bytes : List Char :=
  ['p', 'r', 'o', 'g', NUL, '-', '-', 'f', 'l', 'a', 'g', NUL, 'v', 'a', 'l', 'u', 'e']

/-- A table in which pid 7's `cmdline` record holds `c6Bytes`. -/
def cmdFS6 : ProcFS where
  sigOk := fun _ _ => true
  entries := []
  info := fun _ => none
  status := fun _ => none
  cmdline := fun p => if p = 7 then some c6Bytes else none
  stat := fun _ => none

/-- Claim C6: on a `cmdline` record holding exactly the bytes
"prog\0--flag\0value", `getCommandLine` returns "prog --flag value"; and
in general, on any readable record (here: one without a newline, the case
the format intends — truncation at a newline is the subject of C10), every
embedded null-byte separator is mapped to a single space and all other
bytes are kept unchanged. -/
theorem c6_getCommandLine_normalization :
    getCommandLine cmdFS6 7 = "prog --flag value".toList ∧
    (∀ (fs : ProcFS) (pid : Int) (bytes : List Char),
      fs.cmdline pid = some bytes → (∀ c ∈ bytes, c ≠ '\n') →
      getCommandLine fs pid = bytes.map (fun c => if c = NUL then ' ' else c)) := by
  constructor
  · decide
  · intro fs pid bytes h hnl
    simp only [getCommandLine, h]
    rw [takeWhile_of_all (fun c => c != '\n') bytes
         (fun x hx => by simpa using hnl x hx)]

/-- A table in which pid 9's `cmdline` record is "a\0b". -/
def cmdW6 : ProcFS where
  sigOk := fun _ _ => true
  entries := []
  info := fun _ => none
  status := fun _ => none
  cmdline := fun p => if p = 9 then some ['a', NUL, 'b'] else none
  stat := fun _ => none

/-- Claim C6 witness: the general normalization statement instantiated on
the record "a\0b", evaluating to "a b". -/
theorem c6_witness : getCommandLine cmdW6 9 = ['a', ' ', 'b'] :=
  (c6_getCommandLine_normalization.2 cmdW6 9 (['a', NUL, 'b'])
    (by decide) (by decide)).trans (by decide)

/-- Claim C7: on a build without `__QNXNTO__`, `suspend` and `resume`
return failure with a distinct capability-not-supported diagnostic, for
every pid and every kernel state: the result is never success, a
diagnostic is always emitted (not a silent no-op), and the list of kernel
signal deliveries is empty — in particular no terminate signal is sent. -/
theorem c7_nonqnx_suspend_resume_fail (fs : ProcFS) (pid : Int) :
    suspend false fs pid =
      { ok := false, sent := [],
        diag := some "Process suspension not supported on non-QNX systems" } ∧
    resume false fs pid =
      { ok := false, sent := [],
        diag := some "Process resumption not supported on non-QNX systems" } :=
  ⟨rfl, rfl⟩

/-- Helper: the cpu-usage figure is always the initialiser 0.0 or the
placeholder 0.5, so it lies in [0, 1]. -/
theorem cpuOf_mem_unit (fs : ProcFS) (pid : Int) :
    0 ≤ cpuOf fs pid ∧ cpuOf fs pid ≤ 1 := by
  unfold cpuOf
  cases fs.stat pid with
  | none => norm_num
  | some content =>
    by_cases h : content = [] <;> simp [h] <;> norm_num

/-- Claim C8: whenever `getProcessInfo` returns a `ProcessInfo` value, its
`cpu_usage` lies in [0, 1]: the field is only ever the initialiser 0.0 or
the fixed placeholder 0.5 assigned when the `stat` record is readable,
never a sampled rate. -/
theorem c8_cpu_usage_bounds (plat : Bool) (fs : ProcFS) (pid : Int)
    (i : ProcessInfo) (h : getProcessInfo plat fs pid = some i) :
    0 ≤ i.cpu_usage ∧ i.cpu_usage ≤ 1 := by
  unfold getProcessInfo at h
  split at h
  · exact absurd h (by simp)
  · cases plat with
    | false => exact absurd h (by simp)
    | true =>
      have hi : i = { cpu_usage := cpuOf fs pid, memory_usage := memOf fs pid } := by
        simpa using h.symm
      rw [hi]
      exact cpuOf_mem_unit fs pid

/-- A table in which pid 5 is live and its `stat` record is nonempty, so
`getProcessInfo` produces the placeholder cpu figure 0.5. -/
def liveFS8 : ProcFS where
  sigOk := fun _ _ => true
  entries := []
  info := fun _ => none
  status := fun _ => none
  cmdline := fun _ => none
  stat := fun _ => some ['x']

/-- Claim C8 witness: on `liveFS8`, `getProcessInfo 5` returns the value
with cpu_usage 1/2, which the theorem places in [0, 1]. -/
theorem c8_witness :
    0 ≤ (ProcessInfo.mk ((1 : ℚ)/2) 0).cpu_usage ∧
    (ProcessInfo.mk ((1 : ℚ)/2) 0).cpu_usage ≤ 1 :=
  c8_cpu_usage_bounds true liveFS8 5 (ProcessInfo.mk ((1 : ℚ)/2) 0)
    (by simp [getProcessInfo, exists_, cpuOf, memOf, liveFS8])

/-- Claim C9: on a build without `__QNXNTO__`, `getProcessInfo` returns
absent for every pid and every kernel state — including a live pid whose
existence probe succeeds — because the record-reading block is compiled
out and control reaches the trailing `return std::nullopt`; the caller
receives the same absent value as for a nonexistent process. -/
theorem c9_nonqnx_getProcessInfo_none (fs : ProcFS) (pid : Int) :
    getProcessInfo false fs pid = none := by
  unfold getProcessInfo
  by_cases h : exists_ false fs pid = false <;> simp [h]

/-- Claim C10: when the `cmdline` record consists of a first line `pre`
(containing no newline), a newline, and a tail `post`, `getCommandLine`
returns exactly `pre` with its null bytes replaced by spaces: every byte
from the first newline onward is absent from the result, and the
null-to-space normalization applies only within that first line. -/
theorem c10_getCommandLine_first_line (fs : ProcFS) (pid : Int)
    (pre post : List Char) (h : fs.cmdline pid = some (pre ++ '\n' :: post))
    (hpre : ∀ c ∈ pre, c ≠ '\n') :
    getCommandLine fs pid = pre.map (fun c => if c = NUL then ' ' else c) := by
  simp only [getCommandLine, h]
  rw [takeWhile_append_stop (fun c => c != '\n') pre post '\n'
       (fun x hx => by simpa using hpre x hx) (by simp)]

/-- A table in which pid 3's `cmdline` record is "a\0b\nc\0d". -/
def cmdW10 : ProcFS where
  sigOk := fun _ _ => true
  entries := []
  info := fun _ => none
  status := fun _ => none
  cmdline := fun p => if p = 3 then some (['a', NUL, 'b'] ++ '\n' :: ['c', NUL, 'd']) else none
  stat := fun _ => none

/-- Claim C10 witness: on the record "a\0b\nc\0d" the returned command
line is "a b" — the bytes from the newline on are dropped, and only the
null byte of the first line became a space. -/
theorem c10_witness : getCommandLine cmdW10 3 = ['a', ' ', 'b'] :=
  (c10_getCommandLine_first_line cmdW10 3 (['a', NUL, 'b']) (['c', NUL, 'd'])
    (by decide) (by decide)).trans (by decide)
